import Mathlib

set_option maxHeartbeats 1000000
set_option linter.unusedVariables false

/-!
Shallow embedding of the indexing-sdk event delivery engine.

The Go source (`client/HttpClient.go`, `client/Websocketclient.go`,
`client/stream_client.go`) is translated into pure Lean functions:

* machine `int` fields become `Int`, `uint64` becomes `Nat`;
* the HTTP transport is abstracted as an oracle `Nat → …Attempt` giving the
  outcome of each attempt of the retry loop (create-request failure, transport
  failure, body-read failure, unmarshal failure, or a decoded response);
* Go `error` values are modelled as their message strings, a possibly-nil
  `error` as `Option String`;
* a Go runtime panic (nil-pointer dereference, close of a closed channel) is
  an explicit constructor of the result type;
* `time.Time` values are modelled as integer ticks, `time.Duration` as
  milliseconds.
-/

namespace IndexingSdk

/-- `Event` (HttpClient.go lines 99-118): blockchain contract event. -/
structure Event where
  id : Nat
  blockNumber : Nat
  blockHash : String
  transactionHash : String
  transactionIndex : Nat
  logIndex : Nat
  contractAddress : String
  userAddress : String
  tradeFee : Nat
  tradeFeeCurrency : String
  eventUniqueHash : String
  eventName : String
  eventSignature : String
  topics : List String
  data : String
  removed : Bool
  createdAt : Nat
  updatedAt : Nat
  deriving DecidableEq, Repr

/-- `MetaData` (HttpClient.go lines 88-91): per-batch scan progress. -/
structure MetaData where
  scanLatestBlockNumber : Int
  scanLatestBlockCompleted : Bool
  deriving DecidableEq, Repr

/-- `EventData` (HttpClient.go lines 93-96): the delivery batch sent on the
data channel. Go pointers are collapsed into values. -/
structure EventData where
  metaData : MetaData
  events : List Event
  deriving DecidableEq, Repr

/-- `Page` (HttpClient.go lines 136-141): one page of fetched events. -/
structure Page where
  page : Int
  size : Int
  total : Int
  data : List Event
  deriving DecidableEq, Repr

/-- `PageResponse` (HttpClient.go lines 120-124). The Go `Data *Page` pointer,
which `json.Unmarshal` leaves nil when the `data` field is absent or null,
becomes `Option Page`. -/
structure PageResponse where
  code : Int
  message : String
  data : Option Page
  deriving DecidableEq, Repr

/-- `LatestBlockNumber` (HttpClient.go lines 132-134). -/
structure LatestBlockNumber where
  latestBlockNumber : Nat
  deriving DecidableEq, Repr

/-- `Response` (HttpClient.go lines 126-130), the envelope of the
latestBlockNumber endpoint; `Data *LatestBlockNumber` becomes `Option`. -/
structure Response where
  code : Int
  message : String
  data : Option LatestBlockNumber
  deriving DecidableEq, Repr

/-- `FlowEventsRequest` (HttpClient.go lines 66-70): the subscription request. -/
structure FlowEventsRequest where
  fromBlock : Int
  address : String
  eventNames : List String
  deriving DecidableEq, Repr

/-- `HttpEventsRequest` (HttpClient.go lines 72-79): the scanner cursor. -/
structure HttpEventsRequest where
  fromBlock : Int
  toBlock : Int
  eventNames : List String
  address : String
  pageNumber : Int
  pageSize : Int
  deriving DecidableEq, Repr

/-- `Reset` (HttpClient.go lines 81-86): overwrite the cursor fields, keeping
the filters. The Go pointer mutation becomes a returned record update. -/
def HttpEventsRequest.reset (r : HttpEventsRequest)
    (fromBlock toBlock pageNumber pageSize : Int) : HttpEventsRequest :=
  { r with fromBlock := fromBlock, toBlock := toBlock,
           pageNumber := pageNumber, pageSize := pageSize }

/-- `EventsClient` (HttpClient.go lines 13-21). The opaque `*http.Client`
handle is not part of the embedded state; durations are milliseconds. -/
structure EventsClient where
  baseURL : String
  requestTimeout : Nat
  requestPeriod : Nat
  debug : Bool
  eventSize : Int
  blockSize : Int
  deriving DecidableEq, Repr

/-- `Config` (HttpClient.go lines 24-31). -/
structure Config where
  baseURL : String
  requestTimeout : Nat
  requestPeriod : Nat
  debug : Bool
  eventSize : Int
  blockSize : Int
  deriving DecidableEq, Repr

/-- `NewEventsClient` (HttpClient.go lines 34-63): zero config values are
replaced by defaults (5 s timeouts, BlockSize 10, EventSize 100). -/
def NewEventsClient (config : Config) : EventsClient :=
  { baseURL := config.baseURL,
    requestTimeout := if config.requestTimeout = 0 then 5000 else config.requestTimeout,
    requestPeriod := if config.requestPeriod = 0 then 5000 else config.requestPeriod,
    debug := config.debug,
    eventSize := if config.eventSize = 0 then 100 else config.eventSize,
    blockSize := if config.blockSize = 0 then 10 else config.blockSize }

/-- `shouldRetry` (HttpClient.go lines 326-338): any 5xx code is retryable,
plus the map {429, 503, 504}. -/
def shouldRetry (code : Int) : Bool :=
  if 500 ≤ code ∧ code < 600 then true
  else code == 429 || code == 503 || code == 504

/-- Outcome of one attempt of a retry loop, as classified by the source:
a retryable failure carrying the error string the code builds for it, a
terminal failure, or a decoded success value. -/
inductive FetchStep (α : Type) where
  | success (r : α)
  | terminal (e : String)
  | retryable (e : String)
  deriving DecidableEq, Repr

/-- What the transport yields on one attempt of `GetEvents`
(HttpClient.go lines 274-318): each constructor corresponds to one
`continue`d failure site of the loop body, or to a decoded response. -/
inductive GeAttempt where
  | createErr (m : String)
  | doErr (m : String)
  | readErr (m : String)
  | unmarshalErr (m : String)
  | decoded (r : PageResponse)
  deriving DecidableEq, Repr

/-- Classification of one `GetEvents` attempt, mirroring the loop body of
HttpClient.go lines 281-320: every transport/decode failure `continue`s with
the error string built at that site; a decoded response with a non-success
code is retryable exactly when `shouldRetry` holds, else terminal. -/
def geClassify (a : GeAttempt) : FetchStep PageResponse :=
  match a with
  | .createErr m => .retryable ("create http request failed: " ++ m)
  | .doErr m => .retryable ("http request failed: " ++ m)
  | .readErr m => .retryable ("read response body failed: " ++ m)
  | .unmarshalErr m => .retryable ("unmarshal response body failed: " ++ m)
  | .decoded r =>
      if ¬r.code = 200 ∧ ¬r.code = 0 then
        if shouldRetry r.code then .retryable ("error getting events: " ++ r.message)
        else .terminal ("error getting events: " ++ r.message)
      else .success r

/-- The `for attempt := 0; attempt < 3` loop of `GetEvents`
(HttpClient.go lines 274-322), recursion on the remaining iterations.
Returns the Go `(*PageResponse, error)` pair as `Except (Option String)`
(an `error` may be nil at the fall-through return) together with the number
of attempts actually performed. -/
def GetEventsLoop (o : Nat → GeAttempt) :
    Nat → Nat → Option String → Except (Option String) PageResponse × Nat
  | 0, attempt, lastErr => (.error lastErr, attempt)
  | n + 1, attempt, lastErr =>
      match geClassify (o attempt) with
      | .success r => (.ok r, attempt + 1)
      | .terminal e => (.error (some e), attempt + 1)
      | .retryable e => GetEventsLoop o n (attempt + 1) (some e)

/-- `GetEvents` (HttpClient.go lines 266-323): at most 3 attempts starting
from `lastErr = nil`. -/
def GetEvents (o : Nat → GeAttempt) : Except (Option String) PageResponse × Nat :=
  GetEventsLoop o 3 0 none

/-- What the transport yields on one attempt of `GetLatestBlockNumber`
(HttpClient.go lines 215-261). -/
inductive GlbAttempt where
  | createErr (m : String)
  | doErr (m : String)
  | readErr (m : String)
  | unmarshalErr (m : String)
  | decoded (r : Response)
  deriving DecidableEq, Repr

/-- Classification of one `GetLatestBlockNumber` attempt, mirroring
HttpClient.go lines 222-258 (same error strings as `GetEvents`). -/
def glbClassify (a : GlbAttempt) : FetchStep Response :=
  match a with
  | .createErr m => .retryable ("create http request failed: " ++ m)
  | .doErr m => .retryable ("http request failed: " ++ m)
  | .readErr m => .retryable ("read response body failed: " ++ m)
  | .unmarshalErr m => .retryable ("unmarshal response body failed: " ++ m)
  | .decoded r =>
      if ¬r.code = 200 ∧ ¬r.code = 0 then
        if shouldRetry r.code then .retryable ("error getting events: " ++ r.message)
        else .terminal ("error getting events: " ++ r.message)
      else .success r

/-- Result of `GetLatestBlockNumber`: a block number, a (possibly nil) error,
or the Go runtime panic raised by `return apiResult.Data.LatestBlockNumber`
(HttpClient.go line 261) when the decoded success body has a nil `Data`. -/
inductive GlbResult where
  | ok (n : Nat)
  | err (e : Option String)
  | nilDeref
  deriving DecidableEq, Repr

/-- The retry loop of `GetLatestBlockNumber` (HttpClient.go lines 215-263).
On a decoded success response the code dereferences `apiResult.Data` with no
nil check, so `data = none` yields `nilDeref`. -/
def GetLatestBlockNumberLoop (o : Nat → GlbAttempt) :
    Nat → Nat → Option String → GlbResult × Nat
  | 0, attempt, lastErr => (.err lastErr, attempt)
  | n + 1, attempt, lastErr =>
      match glbClassify (o attempt) with
      | .success r =>
          match r.data with
          | none => (.nilDeref, attempt + 1)
          | some d => (.ok d.latestBlockNumber, attempt + 1)
      | .terminal e => (.err (some e), attempt + 1)
      | .retryable e => GetLatestBlockNumberLoop o n (attempt + 1) (some e)

/-- `GetLatestBlockNumber` (HttpClient.go lines 211-264). -/
def GetLatestBlockNumber (o : Nat → GlbAttempt) : GlbResult × Nat :=
  GetLatestBlockNumberLoop o 3 0 none

/-- Result of one `CycleGetEvents` cycle: either the Go runtime panics (the
embedded `GetLatestBlockNumber` panicked, or line 187 `response.Data.Data`
dereferenced a nil `Data`), or the cycle completes with the cursor after the
cycle, the batch sent on the data channel (`none` when the cycle returned
early), and whether `GetEvents` was invoked at all. -/
inductive CycleOutcome where
  | panicked
  | done (req : HttpEventsRequest) (delivered : Option EventData) (fetchIssued : Bool)
  deriving DecidableEq, Repr

/-- `CycleGetEvents` (HttpClient.go lines 166-209), with the results of its
two sub-calls (`GetLatestBlockNumber`, `GetEvents`) passed in as arguments.
Timer rescheduling and the optional committed-channel wait have no effect on
cursor or batch and are not part of the pure state transition. Line 194 also
tests `response.Data == nil`, but lines 187-193 already dereferenced
`response.Data`, so the `none` case panics before reaching that test. -/
def CycleGetEvents (c : EventsClient) (req : HttpEventsRequest)
    (latest : GlbResult) (fetch : Except (Option String) PageResponse) :
    CycleOutcome :=
  match latest with
  | .nilDeref => .panicked
  | .err _ => .done req none false
  | .ok lbn =>
      if req.toBlock > (lbn : Int) then .done req none false
      else
        match fetch with
        | .error _ => .done req none true
        | .ok response =>
            match response.data with
            | none => .panicked
            | some pg =>
                if ((pg.data.length : Int) < c.eventSize ∨ pg.page * pg.size = pg.total) then
                  .done (req.reset (req.toBlock + 1) (req.toBlock + 11) 1 c.eventSize)
                    (some ⟨⟨req.fromBlock + c.blockSize, true⟩, pg.data⟩) true
                else
                  .done (req.reset req.fromBlock req.toBlock (req.pageNumber + 1) c.eventSize)
                    (some ⟨⟨req.fromBlock + c.blockSize, false⟩, pg.data⟩) true

/-- Cursor after one cycle (projection of `CycleGetEvents`); on a panic the
cursor value is irrelevant and the pre-state is returned. -/
def cycleNextReq (c : EventsClient) (req : HttpEventsRequest)
    (latest : GlbResult) (fetch : Except (Option String) PageResponse) :
    HttpEventsRequest :=
  match CycleGetEvents c req latest fetch with
  | .done r _ _ => r
  | .panicked => req

/-- Batch delivered by one cycle (projection of `CycleGetEvents`). -/
def cycleDelivered (c : EventsClient) (req : HttpEventsRequest)
    (latest : GlbResult) (fetch : Except (Option String) PageResponse) :
    Option EventData :=
  match CycleGetEvents c req latest fetch with
  | .done _ d _ => d
  | .panicked => none

/-- Initial cursor built by `SubscribeEvents` (HttpClient.go lines 145-152):
window `[fromBlock, fromBlock + BlockSize]`, page 1, pageSize = EventSize. -/
def SubscribeEventsInnerReq (c : EventsClient) (req : FlowEventsRequest) :
    HttpEventsRequest :=
  { fromBlock := req.fromBlock,
    toBlock := req.fromBlock + c.blockSize,
    eventNames := req.eventNames,
    address := req.address,
    pageNumber := 1,
    pageSize := c.eventSize }

/-- Run a sequence of cycles, one per fetched page, against a fixed chain
head `lbn`; each page is wrapped in the success envelope `GetEvents` returns
it in. Used to state the multi-cycle part of the pagination invariant. -/
def runFullPages (c : EventsClient) (lbn : Nat) (req : HttpEventsRequest)
    (pages : List Page) : HttpEventsRequest :=
  pages.foldl (fun r pg => cycleNextReq c r (.ok lbn) (.ok ⟨0, "", some pg⟩)) req

/-! Historical variant of the fetcher (second section of HttpClient.go,
lines 433-503 of the concatenated file): same retry loop, but every error is
annotated with the attempt number and the fall-through return wraps the last
error as "all 3 attempts failed, last error: …". -/

/-- `MetaData` of the historical variant (concatenated HttpClient.go lines
425-430): pagination metadata. -/
structure MetaDataV2 where
  page : Int
  pageSize : Int
  total : Int
  totalPages : Int
  deriving DecidableEq, Repr

/-- `GetEventsResponse` of the historical variant (lines 417-422). -/
structure GetEventsResponse where
  code : Int
  message : String
  data : List Event
  meta : MetaDataV2
  deriving DecidableEq, Repr

/-- What the transport yields on one attempt of the historical `GetEvents`. -/
inductive GeAttemptV2 where
  | createErr (m : String)
  | doErr (m : String)
  | readErr (m : String)
  | unmarshalErr (m : String)
  | decoded (r : GetEventsResponse)
  deriving DecidableEq, Repr

/-- Classification of one attempt of the historical `GetEvents` (lines
445-495): failure strings carry `(attempt n)` with the 1-based attempt
number. -/
def geClassifyV2 (attempt : Nat) (a : GeAttemptV2) : FetchStep GetEventsResponse :=
  match a with
  | .createErr m => .retryable ("create request failed: " ++ m)
  | .doErr m =>
      .retryable ("http request failed (attempt " ++ toString (attempt + 1) ++ "): " ++ m)
  | .readErr m =>
      .retryable ("read response failed (attempt " ++ toString (attempt + 1) ++ "): " ++ m)
  | .unmarshalErr m =>
      .retryable ("unmarshal response failed (attempt " ++ toString (attempt + 1) ++ "): " ++ m)
  | .decoded r =>
      if ¬r.code = 200 ∧ ¬r.code = 0 then
        if shouldRetry r.code then
          .retryable ("api error (attempt " ++ toString (attempt + 1) ++ "): " ++ r.message)
        else .terminal ("api error (attempt " ++ toString (attempt + 1) ++ "): " ++ r.message)
      else .success r

/-- Retry loop of the historical `GetEvents` (lines 445-502). The
fall-through return (line 502) annotates the last error with the attempt
count: `fmt.Errorf("all 3 attempts failed, last error: %w", lastErr)`; the
loop always sets `lastErr` before falling through, so the `getD` default is
unreachable. -/
def GetEventsV2Loop (o : Nat → GeAttemptV2) :
    Nat → Nat → Option String → Except (Option String) GetEventsResponse × Nat
  | 0, attempt, lastErr =>
      (.error (some ("all 3 attempts failed, last error: " ++ lastErr.getD "")), attempt)
  | n + 1, attempt, lastErr =>
      match geClassifyV2 attempt (o attempt) with
      | .success r => (.ok r, attempt + 1)
      | .terminal e => (.error (some e), attempt + 1)
      | .retryable e => GetEventsV2Loop o n (attempt + 1) (some e)

/-- The historical `GetEvents` (lines 433-503). -/
def GetEventsV2 (o : Nat → GeAttemptV2) : Except (Option String) GetEventsResponse × Nat :=
  GetEventsV2Loop o 3 0 none

/-! Streaming side: `client/Websocketclient.go` and
`client/stream_client.go` (src/unnamed/part_000). -/

/-- A read failure of the inbound loop: either the connection closed with a
close code, or some other transport error. -/
inductive ReadErr where
  | closeError (code : Int)
  | otherError (m : String)
  deriving DecidableEq, Repr

/-- Close code 1001 (`websocket.CloseGoingAway`). -/
def closeGoingAway : Int := 1001

/-- Close code 1006 (`websocket.CloseAbnormalClosure`). -/
def closeAbnormalClosure : Int := 1006

/-- Models `gorilla/websocket.IsUnexpectedCloseError` (a dependency, not
repository code): true exactly when the error is a close error whose code is
not in the expected list; any non-close error yields false. -/
def IsUnexpectedCloseError (e : ReadErr) (expectedCodes : List Int) : Bool :=
  match e with
  | .closeError code => !(expectedCodes.contains code)
  | .otherError _ => false

/-- Read-failure branch of `readPump` (Websocketclient.go lines 161-169):
returns whether the error callback is invoked. The loop then returns
unconditionally; `hasOnError` models `c.onError != nil`. -/
def readPumpOnReadError (hasOnError : Bool) (e : ReadErr) : Bool :=
  if IsUnexpectedCloseError e [closeGoingAway, closeAbnormalClosure] then hasOnError
  else false

/-- Spec-side predicate, stated from the specification's words: the read
failure carries an abnormal-closure code, that is, it is a connection-close
error whose code is outside the expected set {1001 going-away, 1006
abnormal-closure} that `readPump` passes to the close-error classifier. -/
def CarriesAbnormalClosureCode (e : ReadErr) : Prop :=
  ∃ code, e = .closeError code ∧ code ≠ closeGoingAway ∧ code ≠ closeAbnormalClosure

/-- State of a `WSClient` relevant to `Close` (Websocketclient.go lines
13-23): whether the `done` channel has been closed, whether `conn` is
non-nil, and the `isConnected` flag. -/
structure WSState where
  doneClosed : Bool
  hasConn : Bool
  isConnected : Bool
  deriving DecidableEq, Repr

/-- Result of `Close`: the Go runtime panic raised by `close(c.done)` on an
already-closed channel, or a normal return carrying the returned error and
the post-state. -/
inductive CloseOutcome where
  | panicked
  | returned (err : Option String) (s : WSState)
  deriving DecidableEq, Repr

/-- `Close` (Websocketclient.go lines 110-123): unconditionally executes
`close(c.done)` — which panics if `done` is already closed — then, under the
lock, closes and clears the connection if present, returning its error. The
argument `connCloseErr` models the value of `c.conn.Close()`. -/
def WSClose (connCloseErr : Option String) (s : WSState) : CloseOutcome :=
  if s.doneClosed then .panicked
  else if s.hasConn then .returned connCloseErr ⟨true, false, false⟩
  else .returned none ⟨true, false, s.isConnected⟩

/-- `WSMessage` (Websocketclient.go lines 36-42). The raw-JSON `Data` field
is represented by the outcomes of the two `json.Unmarshal` calls the
dispatcher may apply to it (into `[]Event` and into `Event`), each either a
decoded value or the unmarshal error string. -/
structure WSMessage where
  type : String
  message : String
  dataEvents : Except String (List Event)
  dataEvent : Except String Event
  page : Int
  total : Int

/-- Observable effect of dispatching one message: which consumer callback is
invoked (the code only invokes a callback when it is configured; the
embedding assumes both callbacks are set). -/
inductive DispatchEffect where
  | onEventsCall (events : List Event) (page : Int) (total : Int)
  | onErrorCall (m : String)
  | noCallback
  deriving DecidableEq, Repr

/-- One iteration of the `switch msg.Type` in `processMessages`
(stream_client.go lines 77-121): returns the effect and whether the
processing loop continues. The switch has no default case, so a tag other
than events/new_event/error/end falls through with no effect and the loop
continues; only "end" stops it. -/
def processMessagesStep (msg : WSMessage) : DispatchEffect × Bool :=
  if msg.type = "events" then
    match msg.dataEvents with
    | .error e => (.onErrorCall ("parse events failed: " ++ e), true)
    | .ok events => (.onEventsCall events msg.page msg.total, true)
  else if msg.type = "new_event" then
    match msg.dataEvent with
    | .error e => (.onErrorCall ("parse new event failed: " ++ e), true)
    | .ok event => (.onEventsCall [event] 0 0, true)
  else if msg.type = "error" then
    (.onErrorCall ("server error: " ++ msg.message), true)
  else if msg.type = "end" then
    (.noCallback, false)
  else
    (.noCallback, true)

/-- Sample event used to instantiate universally quantified theorems. -/
def sampleEvent : Event :=
  ⟨1, 42, "bh", "th", 0, 0, "ca", "ua", 0, "FLOW", "uh", "Deposit", "sig", [], "0x", false, 0, 0⟩

/-- Sample full page (one event, pageSize 1, total 5): not exhausted. -/
def sampleFullPage : Page := ⟨1, 1, 5, [sampleEvent]⟩

/-! Helper lemmas about one scanner cycle. -/

/-- When the chain head is behind the cursor's toBlock the cycle returns
before fetching: cursor unchanged, nothing delivered, no fetch issued. -/
theorem CycleGetEvents_skip (c : EventsClient) (req : HttpEventsRequest) (lbn : Nat)
    (fetch : Except (Option String) PageResponse) (h : (lbn : Int) < req.toBlock) :
    CycleGetEvents c req (.ok lbn) fetch = .done req none false := by
  simp [CycleGetEvents, h]

/-- Exhausted-window branch of the cycle (HttpClient.go lines 194-197). -/
theorem CycleGetEvents_exhausted (c : EventsClient) (req : HttpEventsRequest) (lbn : Nat)
    (resp : PageResponse) (pg : Page) (hlbn : req.toBlock ≤ (lbn : Int))
    (hdata : resp.data = some pg)
    (hex : (pg.data.length : Int) < c.eventSize ∨ pg.page * pg.size = pg.total) :
    CycleGetEvents c req (.ok lbn) (.ok resp) =
      .done (req.reset (req.toBlock + 1) (req.toBlock + 11) 1 c.eventSize)
        (some ⟨⟨req.fromBlock + c.blockSize, true⟩, pg.data⟩) true := by
  have hnot : ¬ req.toBlock > (lbn : Int) := not_lt.mpr hlbn
  simp only [CycleGetEvents]
  rw [if_neg hnot, hdata]
  simp only []
  rw [if_pos hex]

/-- Not-exhausted branch of the cycle (HttpClient.go lines 198-201). -/
theorem CycleGetEvents_notExhausted (c : EventsClient) (req : HttpEventsRequest) (lbn : Nat)
    (resp : PageResponse) (pg : Page) (hlbn : req.toBlock ≤ (lbn : Int))
    (hdata : resp.data = some pg)
    (hcount : ¬ (pg.data.length : Int) < c.eventSize)
    (htot : pg.page * pg.size ≠ pg.total) :
    CycleGetEvents c req (.ok lbn) (.ok resp) =
      .done (req.reset req.fromBlock req.toBlock (req.pageNumber + 1) c.eventSize)
        (some ⟨⟨req.fromBlock + c.blockSize, false⟩, pg.data⟩) true := by
  have hnot : ¬ req.toBlock > (lbn : Int) := not_lt.mpr hlbn
  simp only [CycleGetEvents]
  rw [if_neg hnot, hdata]
  simp only []
  rw [if_neg (not_or.mpr ⟨hcount, htot⟩)]

/-- Window and page bookkeeping over a run of non-exhausting pages. -/
theorem runFullPages_window (c : EventsClient) (lbn : Nat) (pages : List Page) :
    ∀ req : HttpEventsRequest, req.toBlock ≤ (lbn : Int) →
      (∀ pg ∈ pages, ¬ (pg.data.length : Int) < c.eventSize ∧ pg.page * pg.size ≠ pg.total) →
      (runFullPages c lbn req pages).fromBlock = req.fromBlock ∧
      (runFullPages c lbn req pages).toBlock = req.toBlock ∧
      (runFullPages c lbn req pages).pageNumber = req.pageNumber + (pages.length : Int) := by
  induction pages with
  | nil =>
      intro req hlbn hall
      simp [runFullPages]
  | cons pg rest ih =>
      intro req hlbn hall
      have hpg := hall pg (List.mem_cons_self pg rest)
      have hstep : cycleNextReq c req (.ok lbn) (.ok ⟨0, "", some pg⟩) =
          req.reset req.fromBlock req.toBlock (req.pageNumber + 1) c.eventSize := by
        unfold cycleNextReq
        rw [CycleGetEvents_notExhausted c req lbn ⟨0, "", some pg⟩ pg hlbn rfl hpg.1 hpg.2]
      have hfold : runFullPages c lbn req (pg :: rest) =
          runFullPages c lbn
            (req.reset req.fromBlock req.toBlock (req.pageNumber + 1) c.eventSize) rest := by
        simp [runFullPages, hstep]
      rw [hfold]
      have ih2 := ih (req.reset req.fromBlock req.toBlock (req.pageNumber + 1) c.eventSize)
        (by simpa [HttpEventsRequest.reset] using hlbn)
        (fun q hq => hall q (List.mem_cons_of_mem _ hq))
      rcases ih2 with ⟨h1, h2, h3⟩
      refine ⟨?_, ?_, ?_⟩
      · rw [h1]; simp [HttpEventsRequest.reset]
      · rw [h2]; simp [HttpEventsRequest.reset]
      · rw [h3]; simp [HttpEventsRequest.reset]; ring

/-! Helper lemmas about the retry loop of the Fetcher. -/

/-- The attempt counter never goes below its starting value. -/
theorem GetEventsLoop_attempts_ge (o : Nat → GeAttempt) :
    ∀ (n attempt : Nat) (lastErr : Option String),
      attempt ≤ (GetEventsLoop o n attempt lastErr).2 := by
  intro n
  induction n with
  | zero => intro attempt lastErr; simp [GetEventsLoop]
  | succ m ih =>
      intro attempt lastErr
      rcases hc : geClassify (o attempt) with r | e | e <;> simp [GetEventsLoop, hc]
      exact le_trans (by omega) (ih (attempt + 1) (some e))

/-- The loop performs at most `attempt + n` attempts in total. -/
theorem GetEventsLoop_attempts_le (o : Nat → GeAttempt) :
    ∀ (n attempt : Nat) (lastErr : Option String),
      (GetEventsLoop o n attempt lastErr).2 ≤ attempt + n := by
  intro n
  induction n with
  | zero => intro attempt lastErr; simp [GetEventsLoop]
  | succ m ih =>
      intro attempt lastErr
      rcases hc : geClassify (o attempt) with r | e | e
      · simp only [GetEventsLoop, hc]; omega
      · simp only [GetEventsLoop, hc]; omega
      · simp only [GetEventsLoop, hc]
        exact le_trans (ih (attempt + 1) (some e)) (by omega)

/-- With fuel left, the loop performs at least one more attempt. -/
theorem GetEventsLoop_attempts_pos (o : Nat → GeAttempt) (n attempt : Nat)
    (lastErr : Option String) (h : 0 < n) :
    attempt + 1 ≤ (GetEventsLoop o n attempt lastErr).2 := by
  cases n with
  | zero => omega
  | succ m =>
      rcases hc : geClassify (o attempt) with r | e | e <;> simp [GetEventsLoop, hc]
      exact GetEventsLoop_attempts_ge o m (attempt + 1) (some e)

/-- A decoded non-success response outside the retry allow-list is terminal. -/
theorem geClassify_decoded_terminal (r : PageResponse) (h1 : ¬r.code = 200)
    (h2 : ¬r.code = 0) (h3 : shouldRetry r.code = false) :
    geClassify (GeAttempt.decoded r) = .terminal ("error getting events: " ++ r.message) := by
  simp [geClassify, h1, h2, h3]

/-- A decoded non-success response inside the retry allow-list is retryable. -/
theorem geClassify_decoded_retryable (r : PageResponse) (h1 : ¬r.code = 200)
    (h2 : ¬r.code = 0) (h3 : shouldRetry r.code = true) :
    geClassify (GeAttempt.decoded r) = .retryable ("error getting events: " ++ r.message) := by
  simp [geClassify, h1, h2, h3]

/-- The retry allow-list of `shouldRetry` is exactly any 5xx code plus
429, 503 and 504. -/
theorem shouldRetry_iff (code : Int) :
    shouldRetry code = true ↔
      ((500 ≤ code ∧ code < 600) ∨ code = 429 ∨ code = 503 ∨ code = 504) := by
  unfold shouldRetry
  by_cases h : 500 ≤ code ∧ code < 600
  · simp [h]
  · simp [h, or_assoc]

/-! Claim theorems. -/

/-- Claim C3 (confirmed): `GetEvents` performs at most 3 attempts; a decoded
non-success application code is retried exactly when it is in the allow-list
(any 500..599, plus 429, 503, 504); for a non-success code outside the
allow-list exactly 1 attempt is made and the terminal error is returned
immediately. -/
theorem claim_C3 (o : Nat → GeAttempt) :
    (GetEvents o).2 ≤ 3 ∧
    (∀ r : PageResponse, o 0 = GeAttempt.decoded r → ¬r.code = 200 → ¬r.code = 0 →
      (shouldRetry r.code = false →
        GetEvents o = (.error (some ("error getting events: " ++ r.message)), 1)) ∧
      (shouldRetry r.code = true → 2 ≤ (GetEvents o).2)) ∧
    (∀ code : Int, shouldRetry code = true ↔
      ((500 ≤ code ∧ code < 600) ∨ code = 429 ∨ code = 503 ∨ code = 504)) := by
  refine ⟨GetEventsLoop_attempts_le o 3 0 none, ?_, shouldRetry_iff⟩
  intro r h0 h200 h0c
  constructor
  · intro hsr
    simp [GetEvents, GetEventsLoop, h0, geClassify_decoded_terminal r h200 h0c hsr]
  · intro hsr
    have hstep : GetEvents o =
        GetEventsLoop o 2 1 (some ("error getting events: " ++ r.message)) := by
      simp [GetEvents, GetEventsLoop, h0, geClassify_decoded_retryable r h200 h0c hsr]
    rw [hstep]
    exact GetEventsLoop_attempts_pos o 2 1 _ (by omega)

/-- Witness for C3 at a concrete run: a decoded 404 is terminal after one
attempt, and 500 is in the allow-list. -/
theorem claim_C3_witness :
    (GetEvents (fun _ => GeAttempt.decoded ⟨404, "not found", none⟩)).2 ≤ 3 ∧
    GetEvents (fun _ => GeAttempt.decoded ⟨404, "not found", none⟩) =
      (.error (some ("error getting events: " ++ "not found")), 1) ∧
    (shouldRetry 500 = true ↔
      (((500 : Int) ≤ 500 ∧ (500 : Int) < 600) ∨ (500 : Int) = 429 ∨
        (500 : Int) = 503 ∨ (500 : Int) = 504)) :=
  ⟨(claim_C3 (fun _ => GeAttempt.decoded ⟨404, "not found", none⟩)).1,
   ((claim_C3 (fun _ => GeAttempt.decoded ⟨404, "not found", none⟩)).2.1
      ⟨404, "not found", none⟩ rfl (by decide) (by decide)).1 (by decide),
   (claim_C3 (fun _ => GeAttempt.decoded ⟨404, "not found", none⟩)).2.2 500⟩

/-- Claim C4 (code_bug): the spec says the Fetcher never panics and is total
on success bodies with an absent or null data field, but
`GetLatestBlockNumber` (HttpClient.go line 261) dereferences the nil `Data`
pointer of such a body and panics; `GetEvents` on the analogous input indeed
returns the decoded success value. -/
theorem claim_C4_code_bug :
    GetLatestBlockNumber (fun _ => GlbAttempt.decoded ⟨200, "ok", none⟩) = (.nilDeref, 1) ∧
    GetEvents (fun _ => GeAttempt.decoded ⟨200, "ok", none⟩) = (.ok ⟨200, "ok", none⟩, 1) :=
  ⟨rfl, rfl⟩

/-- Claim C10 (corrected): when the loop retries away all 3 attempts, the
scanner's `GetEvents` (HttpClient.go line 322) returns the last observed
error unchanged, while only the historical variant (line 502) annotates it
with the attempt count. -/
theorem claim_C10_amended (o : Nat → GeAttempt) (o2 : Nat → GeAttemptV2)
    (e0 e1 e2 f0 f1 f2 : String)
    (h0 : geClassify (o 0) = .retryable e0) (h1 : geClassify (o 1) = .retryable e1)
    (h2 : geClassify (o 2) = .retryable e2)
    (g0 : geClassifyV2 0 (o2 0) = .retryable f0)
    (g1 : geClassifyV2 1 (o2 1) = .retryable f1)
    (g2 : geClassifyV2 2 (o2 2) = .retryable f2) :
    GetEvents o = (.error (some e2), 3) ∧
    GetEventsV2 o2 = (.error (some ("all 3 attempts failed, last error: " ++ f2)), 3) := by
  constructor
  · simp [GetEvents, GetEventsLoop, h0, h1, h2]
  · simp [GetEventsV2, GetEventsV2Loop, g0, g1, g2]

/-- Counterexample for C10 as stated: with every attempt a transport failure,
the scanner's `GetEvents` returns exactly the bare last error, which differs
from the attempt-count-annotated form the claim requires. -/
theorem claim_C10_counterexample :
    GetEvents (fun _ => GeAttempt.doErr "connection refused") =
      (.error (some ("http request failed: " ++ "connection refused")), 3) ∧
    ("http request failed: " ++ "connection refused" : String) ≠
      "all 3 attempts failed, last error: http request failed: connection refused" := by
  constructor
  · rfl
  · decide

/-- Witness for C10 at concrete all-failing runs of both variants. -/
theorem claim_C10_witness :
    GetEvents (fun _ => GeAttempt.readErr "eof") =
      (.error (some ("read response body failed: " ++ "eof")), 3) ∧
    GetEventsV2 (fun _ => GeAttemptV2.createErr "bad url") =
      (.error (some ("all 3 attempts failed, last error: " ++
        ("create request failed: " ++ "bad url"))), 3) :=
  claim_C10_amended (fun _ => GeAttempt.readErr "eof") (fun _ => GeAttemptV2.createErr "bad url")
    _ _ _ _ _ _ rfl rfl rfl rfl rfl rfl

/-- Counterexample for C1 as stated: with BlockSize = 5, an exhausted window
(0 events < EventSize 100, completed flag delivered true) advances to
toBlock' = old toBlock + 11, which is fromBlock' + 10, not
fromBlock' + BlockSize. -/
theorem claim_C1_counterexample :
    (cycleNextReq ⟨"", 5000, 5000, false, 100, 5⟩ ⟨0, 5, [], "", 1, 100⟩ (.ok 100)
        (.ok ⟨200, "ok", some ⟨1, 100, 0, []⟩⟩)).toBlock ≠
      (cycleNextReq ⟨"", 5000, 5000, false, 100, 5⟩ ⟨0, 5, [], "", 1, 100⟩ (.ok 100)
        (.ok ⟨200, "ok", some ⟨1, 100, 0, []⟩⟩)).fromBlock + 5 ∧
    cycleDelivered ⟨"", 5000, 5000, false, 100, 5⟩ ⟨0, 5, [], "", 1, 100⟩ (.ok 100)
        (.ok ⟨200, "ok", some ⟨1, 100, 0, []⟩⟩) =
      some ⟨⟨5, true⟩, []⟩ := by
  constructor
  · decide
  · rfl

/-- Claim C1 (corrected): after window exhaustion the next cursor satisfies
fromBlock' = toBlock + 1 and pageNumber' = 1, but the new window span is the
hardcoded constant 10 of `Reset(toBlock+1, toBlock+11, …)` (HttpClient.go
line 197) — equal to the configured BlockSize only when BlockSize = 10 — so
toBlock' = fromBlock' + 10 for every configuration. -/
theorem claim_C1_amended (c : EventsClient) (req : HttpEventsRequest) (lbn : Nat)
    (resp : PageResponse) (pg : Page) (hlbn : req.toBlock ≤ (lbn : Int))
    (hdata : resp.data = some pg)
    (hex : (pg.data.length : Int) < c.eventSize ∨ pg.page * pg.size = pg.total) :
    (cycleNextReq c req (.ok lbn) (.ok resp)).fromBlock = req.toBlock + 1 ∧
    (cycleNextReq c req (.ok lbn) (.ok resp)).toBlock =
      (cycleNextReq c req (.ok lbn) (.ok resp)).fromBlock + 10 ∧
    (cycleNextReq c req (.ok lbn) (.ok resp)).pageNumber = 1 := by
  have h := CycleGetEvents_exhausted c req lbn resp pg hlbn hdata hex
  unfold cycleNextReq
  rw [h]
  refine ⟨rfl, ?_, rfl⟩
  simp only [HttpEventsRequest.reset]
  ring

/-- Witness for C1 at a concrete exhausted cycle (BlockSize 10). -/
theorem claim_C1_witness :
    (cycleNextReq ⟨"", 5000, 5000, false, 100, 10⟩ ⟨0, 10, [], "", 1, 100⟩ (.ok 50)
        (.ok ⟨200, "ok", some ⟨1, 100, 0, []⟩⟩)).fromBlock = 10 + 1 ∧
    (cycleNextReq ⟨"", 5000, 5000, false, 100, 10⟩ ⟨0, 10, [], "", 1, 100⟩ (.ok 50)
        (.ok ⟨200, "ok", some ⟨1, 100, 0, []⟩⟩)).toBlock =
      (cycleNextReq ⟨"", 5000, 5000, false, 100, 10⟩ ⟨0, 10, [], "", 1, 100⟩ (.ok 50)
        (.ok ⟨200, "ok", some ⟨1, 100, 0, []⟩⟩)).fromBlock + 10 ∧
    (cycleNextReq ⟨"", 5000, 5000, false, 100, 10⟩ ⟨0, 10, [], "", 1, 100⟩ (.ok 50)
        (.ok ⟨200, "ok", some ⟨1, 100, 0, []⟩⟩)).pageNumber = 1 :=
  claim_C1_amended ⟨"", 5000, 5000, false, 100, 10⟩ ⟨0, 10, [], "", 1, 100⟩ 50
    ⟨200, "ok", some ⟨1, 100, 0, []⟩⟩ ⟨1, 100, 0, []⟩ (by decide) rfl (by decide)

/-- Claim C2 (confirmed): a fetch whose page is not exhausted keeps the
window, increments pageNumber by exactly 1 and delivers
scanLatestBlockCompleted = false; over a run of full pages the page number
increases by 1 per cycle while fromBlock and toBlock stay constant. -/
theorem claim_C2 (c : EventsClient) (req : HttpEventsRequest) (lbn : Nat)
    (pages : List Page) (hlbn : req.toBlock ≤ (lbn : Int))
    (hall : ∀ pg ∈ pages, ¬ (pg.data.length : Int) < c.eventSize ∧
      pg.page * pg.size ≠ pg.total) :
    (runFullPages c lbn req pages).fromBlock = req.fromBlock ∧
    (runFullPages c lbn req pages).toBlock = req.toBlock ∧
    (runFullPages c lbn req pages).pageNumber = req.pageNumber + (pages.length : Int) ∧
    (∀ (resp : PageResponse) (pg : Page), resp.data = some pg →
      ¬ (pg.data.length : Int) < c.eventSize → pg.page * pg.size ≠ pg.total →
      CycleGetEvents c req (.ok lbn) (.ok resp) =
        .done (req.reset req.fromBlock req.toBlock (req.pageNumber + 1) c.eventSize)
          (some ⟨⟨req.fromBlock + c.blockSize, false⟩, pg.data⟩) true) := by
  have h := runFullPages_window c lbn pages req hlbn hall
  exact ⟨h.1, h.2.1, h.2.2,
    fun resp pg hdata hcount htot =>
      CycleGetEvents_notExhausted c req lbn resp pg hlbn hdata hcount htot⟩

/-- Witness for C2 at a concrete run of one full page (pageSize 1, one
event, total 5): window constant, pageNumber 1 → 2,
scanLatestBlockCompleted = false. -/
theorem claim_C2_witness :
    (runFullPages ⟨"", 5000, 5000, false, 1, 10⟩ 100 ⟨0, 10, [], "", 1, 1⟩
        [sampleFullPage]).fromBlock = 0 ∧
    (runFullPages ⟨"", 5000, 5000, false, 1, 10⟩ 100 ⟨0, 10, [], "", 1, 1⟩
        [sampleFullPage]).toBlock = 10 ∧
    (runFullPages ⟨"", 5000, 5000, false, 1, 10⟩ 100 ⟨0, 10, [], "", 1, 1⟩
        [sampleFullPage]).pageNumber = 1 + (1 : Int) ∧
    CycleGetEvents ⟨"", 5000, 5000, false, 1, 10⟩ ⟨0, 10, [], "", 1, 1⟩ (.ok 100)
        (.ok ⟨200, "ok", some sampleFullPage⟩) =
      .done ((⟨0, 10, [], "", 1, 1⟩ : HttpEventsRequest).reset 0 10 (1 + 1) 1)
        (some ⟨⟨0 + 10, false⟩, sampleFullPage.data⟩) true := by
  have h := claim_C2 ⟨"", 5000, 5000, false, 1, 10⟩ ⟨0, 10, [], "", 1, 1⟩ 100
    [sampleFullPage] (by decide) (by decide)
  exact ⟨h.1, h.2.1, h.2.2.1,
    h.2.2.2 ⟨200, "ok", some sampleFullPage⟩ sampleFullPage rfl (by decide) (by decide)⟩

/-- Claim C5 (confirmed): when the service-reported chain head is behind the
cursor's toBlock the cycle is a no-op — no fetch issued, nothing delivered,
cursor unchanged — and any cycle that changes fromBlock had chain head ≥
toBlock. -/
theorem claim_C5 (c : EventsClient) (req : HttpEventsRequest) (lbn : Nat)
    (fetch : Except (Option String) PageResponse) (h : (lbn : Int) < req.toBlock) :
    CycleGetEvents c req (.ok lbn) fetch = .done req none false ∧
    (∀ (lbn2 : Nat) (fetch2 : Except (Option String) PageResponse)
        (r : HttpEventsRequest) (d : Option EventData) (f : Bool),
      CycleGetEvents c req (.ok lbn2) fetch2 = .done r d f →
      ¬r.fromBlock = req.fromBlock → req.toBlock ≤ (lbn2 : Int)) := by
  constructor
  · exact CycleGetEvents_skip c req lbn fetch h
  · intro lbn2 fetch2 r d f hc hne
    by_contra hle
    push_neg at hle
    rw [CycleGetEvents_skip c req lbn2 fetch2 hle] at hc
    injection hc with hr hd hf
    exact hne (hr ▸ rfl)

/-- Witness for C5: chain head 3 is behind toBlock 10, so the cycle is a
no-op. -/
theorem claim_C5_witness :
    CycleGetEvents ⟨"", 5000, 5000, false, 100, 10⟩ ⟨0, 10, [], "", 1, 100⟩ (.ok 3)
        (.error none) =
      .done ⟨0, 10, [], "", 1, 100⟩ none false :=
  (claim_C5 ⟨"", 5000, 5000, false, 100, 10⟩ ⟨0, 10, [], "", 1, 100⟩ 3 (.error none)
    (by decide)).1

/-- Counterexample for C6 as stated: starting a subscription at block 0 with
BlockSize = 5, the second cycle (cursor {fromBlock 6, toBlock 16} after the
first exhausted window) delivers scanLatestBlockNumber = 11 =
fromBlock + BlockSize, not the cursor's toBlock = 16. -/
theorem claim_C6_counterexample :
    (cycleDelivered ⟨"", 5000, 5000, false, 100, 5⟩
        (cycleNextReq ⟨"", 5000, 5000, false, 100, 5⟩
          (SubscribeEventsInnerReq ⟨"", 5000, 5000, false, 100, 5⟩ ⟨0, "", []⟩)
          (.ok 1000) (.ok ⟨200, "", some ⟨1, 100, 0, []⟩⟩))
        (.ok 1000) (.ok ⟨200, "", some ⟨1, 100, 0, []⟩⟩)).map
      (fun d => d.metaData.scanLatestBlockNumber) = some 11 ∧
    (cycleNextReq ⟨"", 5000, 5000, false, 100, 5⟩
        (SubscribeEventsInnerReq ⟨"", 5000, 5000, false, 100, 5⟩ ⟨0, "", []⟩)
        (.ok 1000) (.ok ⟨200, "", some ⟨1, 100, 0, []⟩⟩)).toBlock = 16 ∧
    (11 : Int) ≠ 16 := by
  refine ⟨rfl, rfl, by decide⟩

/-- Claim C6 (corrected): every successful fetch cycle delivers ScanMeta
with scanLatestBlockNumber = fromBlock + BlockSize (HttpClient.go line 184)
— which coincides with the cursor's toBlock exactly on windows satisfying
toBlock = fromBlock + BlockSize, such as the initial window — and with
scanLatestBlockCompleted true exactly when the fetch exhausted the window. -/
theorem claim_C6_amended (c : EventsClient) (req : HttpEventsRequest) (lbn : Nat)
    (resp : PageResponse) (pg : Page) (hlbn : req.toBlock ≤ (lbn : Int))
    (hdata : resp.data = some pg) :
    cycleDelivered c req (.ok lbn) (.ok resp) =
      some ⟨⟨req.fromBlock + c.blockSize,
             decide ((pg.data.length : Int) < c.eventSize ∨ pg.page * pg.size = pg.total)⟩,
            pg.data⟩ ∧
    (req.toBlock = req.fromBlock + c.blockSize →
      (cycleDelivered c req (.ok lbn) (.ok resp)).map
          (fun d => d.metaData.scanLatestBlockNumber) = some req.toBlock) := by
  by_cases hex : (pg.data.length : Int) < c.eventSize ∨ pg.page * pg.size = pg.total
  · have h := CycleGetEvents_exhausted c req lbn resp pg hlbn hdata hex
    unfold cycleDelivered
    rw [h]
    refine ⟨by simp [hex], ?_⟩
    intro ht
    simp [ht]
  · rcases not_or.mp hex with ⟨h1, h2⟩
    have h := CycleGetEvents_notExhausted c req lbn resp pg hlbn hdata h1 h2
    unfold cycleDelivered
    rw [h]
    refine ⟨by simp [hex], ?_⟩
    intro ht
    simp [ht]

/-- Witness for C6 at a concrete initial-window cycle (toBlock = fromBlock +
BlockSize = 10): the delivered meta block number equals toBlock and the
completed flag is true for the exhausted empty page. -/
theorem claim_C6_witness :
    cycleDelivered ⟨"", 5000, 5000, false, 100, 10⟩ ⟨0, 10, [], "", 1, 100⟩ (.ok 50)
        (.ok ⟨200, "ok", some ⟨1, 100, 0, []⟩⟩) =
      some ⟨⟨0 + 10,
             decide ((([] : List Event).length : Int) < 100 ∨ (1 : Int) * 100 = 0)⟩, []⟩ ∧
    (cycleDelivered ⟨"", 5000, 5000, false, 100, 10⟩ ⟨0, 10, [], "", 1, 100⟩ (.ok 50)
        (.ok ⟨200, "ok", some ⟨1, 100, 0, []⟩⟩)).map
      (fun d => d.metaData.scanLatestBlockNumber) = some 10 := by
  have h := claim_C6_amended ⟨"", 5000, 5000, false, 100, 10⟩ ⟨0, 10, [], "", 1, 100⟩ 50
    ⟨200, "ok", some ⟨1, 100, 0, []⟩⟩ ⟨1, 100, 0, []⟩ (by decide) rfl
  exact ⟨h.1, h.2 (by decide)⟩

/-- Claim C7 (confirmed): with an error callback configured, a read failure
of the inbound loop invokes the callback exactly when it carries an
abnormal-closure code, that is, a close code outside the expected set
{1001 going-away, 1006 abnormal-closure} passed to the classifier; expected
close codes and non-close transport errors are not surfaced. -/
theorem claim_C7 (e : ReadErr) :
    readPumpOnReadError true e = true ↔ CarriesAbnormalClosureCode e := by
  cases e with
  | closeError code =>
      by_cases hc1 : code = 1001
      · subst hc1
        simp [readPumpOnReadError, IsUnexpectedCloseError, CarriesAbnormalClosureCode,
          List.contains, List.elem, closeGoingAway, closeAbnormalClosure]
      · by_cases hc2 : code = 1006
        · subst hc2
          simp [readPumpOnReadError, IsUnexpectedCloseError, CarriesAbnormalClosureCode,
            List.contains, List.elem, closeGoingAway, closeAbnormalClosure]
        · have b1 : (code == 1001) = false := beq_eq_false_iff_ne.mpr hc1
          have b2 : (code == 1006) = false := beq_eq_false_iff_ne.mpr hc2
          simp [readPumpOnReadError, IsUnexpectedCloseError, CarriesAbnormalClosureCode,
            List.contains, List.elem, closeGoingAway, closeAbnormalClosure, b1, b2, hc1, hc2]
  | otherError m =>
      simp [readPumpOnReadError, IsUnexpectedCloseError, CarriesAbnormalClosureCode]

/-- Counterexample for C8 as stated: after a completed close (done channel
closed, connection cleared), calling Close again panics on `close(c.done)`
(Websocketclient.go line 111) instead of returning without error. -/
theorem claim_C8_counterexample :
    WSClose none ⟨false, true, true⟩ = .returned none ⟨true, false, false⟩ ∧
    WSClose none ⟨true, false, false⟩ = .panicked :=
  ⟨rfl, rfl⟩

/-- Claim C8 (corrected): a first Close signals termination, closes the
underlying connection and sets the state to closed, but Close is safe to
call only once — a second call on the resulting state panics closing the
already-closed done channel. -/
theorem claim_C8_amended (e : Option String) (s : WSState)
    (h1 : s.doneClosed = false) (h2 : s.hasConn = true) :
    WSClose e s = .returned e ⟨true, false, false⟩ ∧
    WSClose e ⟨true, false, false⟩ = .panicked := by
  constructor
  · simp [WSClose, h1, h2]
  · rfl

/-- Witness for C8 starting from a connected client. -/
theorem claim_C8_witness :
    WSClose (some "reset by peer") ⟨false, true, true⟩ =
      .returned (some "reset by peer") ⟨true, false, false⟩ ∧
    WSClose (some "reset by peer") ⟨true, false, false⟩ = .panicked :=
  claim_C8_amended (some "reset by peer") ⟨false, true, true⟩ rfl rfl

/-- Counterexample for C9 as stated: a heartbeat-tagged message falls through
the tag switch with no callback at all — the error callback is not invoked —
while processing continues. -/
theorem claim_C9_counterexample :
    processMessagesStep ⟨"heartbeat", "", .ok [], .error "", 0, 0⟩ =
      (.noCallback, true) :=
  rfl

/-- Claim C9 (corrected): a message whose tag is none of events, new_event,
error or end is silently skipped — no consumer callback is invoked, no
protocol error is reported — and the connection is not terminated, so
dispatch of subsequent messages continues. -/
theorem claim_C9_amended (msg : WSMessage)
    (h : msg.type ∉ (["events", "new_event", "error", "end"] : List String)) :
    processMessagesStep msg = (.noCallback, true) := by
  simp only [List.mem_cons, List.not_mem_nil, or_false, not_or] at h
  obtain ⟨h1, h2, h3, h4⟩ := h
  simp [processMessagesStep, h1, h2, h3, h4]

/-- Witness for C9 at a concrete info-tagged message. -/
theorem claim_C9_witness :
    processMessagesStep ⟨"info", "hello", .ok [], .error "", 0, 0⟩ =
      (.noCallback, true) :=
  claim_C9_amended ⟨"info", "hello", .ok [], .error "", 0, 0⟩ (by decide)

end IndexingSdk
